import Mathlib

/-
Verification of the graphics-switching core of system76-power (graphics.rs).

The Rust code performs OS side effects (sysfs reads, file writes, process
spawns, PCI driver unbind / device remove).  We embed it shallowly: the
kernel-side per-function state (path existence, bound driver, outcome of a
requested unbind or remove) lives in an explicit `OsState`; results of file
reads / writes and process spawns that the code consumes are provided by an
`Env` record; each Rust method becomes a pure Lean function threading the
state and returning the same `Result` values the source returns, together
with a trace of the externally visible operations it attempted.
-/

deriving instance DecidableEq for Except

namespace Sys76

/-- Kind of an OS io error.  The source inspects only NotFound
(ErrorKind.NotFound) and constructs InvalidData; everything else is opaque. -/
inductive IoKind where
  | notFound
  | invalidData
  | otherKind (code : Nat)
deriving DecidableEq, Repr

/-- An OS io error: a kind plus a message. -/
structure IoError where
  kind : IoKind
  msg : String
deriving DecidableEq, Repr

/-- Process exit status, success meaning code 0. -/
abbrev ExitStatus := Nat

/-- Mirror of enum GraphicsDeviceError in graphics.rs, one constructor per
variant, carrying the same data. -/
inductive GraphicsDeviceError where
  | Command (cmd : String) (why : IoError)
  | DeviceInUse (func driver : String)
  | Json (e : IoError)
  | ModprobeFileOpen (e : IoError)
  | ModprobeFileWrite (e : IoError)
  | ModulesFetch (e : IoError)
  | NotSwitchable
  | PciDriver (device : String) (why : IoError)
  | PrimeModeRead (e : IoError)
  | PrimeModeWrite (e : IoError)
  | Remove (device : String) (why : IoError)
  | Rescan (e : IoError)
  | SysFs (e : IoError)
  | Unbind (func driver : String) (why : IoError)
  | UpdateInitramfs (status : ExitStatus)
  | UpdateInitramfsNoTools (status : ExitStatus)
deriving DecidableEq, Repr

/-- Kernel-side state of one PCI function, as observed through the sysfs
calls the source makes: whether its sysfs path exists, what a driver lookup
returns (Ok driver name, or an io error whose kind the source matches on),
and what outcome the kernel would give to an unbind of its bound driver or
to a remove request. -/
structure FuncState where
  pathExists : Bool
  driverResult : Except IoError String
  unbindResult : Option IoError
  removeResult : Option IoError
deriving DecidableEq, Repr

/-- State of a PCI function that is absent from the bus. -/
def FuncState.absent : FuncState :=
  { pathExists := false
    driverResult := Except.error { kind := IoKind.notFound, msg := "" }
    unbindResult := none
    removeResult := none }

/-- Kernel-side state of the PCI bus, keyed by function id; functions not in
the list are absent. -/
structure OsState where
  funcs : List (String × FuncState)
deriving DecidableEq, Repr

/-- Read the state of one function (absent when not recorded). -/
def OsState.get (s : OsState) (fid : String) : FuncState :=
  (List.lookup fid s.funcs).getD FuncState.absent

/-- Update the state of one function. -/
def OsState.set (s : OsState) (fid : String) (st : FuncState) : OsState :=
  { funcs := (fid, st) :: s.funcs }

theorem OsState.get_set_self (s : OsState) (a : String) (st : FuncState) :
    (s.set a st).get a = st := by
  simp [OsState.get, OsState.set, List.lookup]

theorem OsState.get_set_ne (s : OsState) (a b : String) (st : FuncState)
    (h : b ≠ a) : (s.set a st).get b = s.get b := by
  have hb : (b == a) = false := beq_eq_false_iff_ne.mpr h
  simp [OsState.get, OsState.set, List.lookup, hb]

/-- Mirror of struct GraphicsDevice: a PCI slot id plus the ordered ids of
the PCI functions grouped under it (the PciDevice handles of the source are
sysfs paths, here identified by their id into the OsState). -/
structure GraphicsDevice where
  id : String
  functions : List String
deriving DecidableEq, Repr

/-- Mirror of GraphicsDevice.exists: true when any owned function's sysfs
path currently exists.  Named existsOn since exists is a Lean keyword. -/
def GraphicsDevice.existsOn (d : GraphicsDevice) (s : OsState) : Bool :=
  d.functions.any (fun fid => (s.get fid).pathExists)

/-- Loop body of GraphicsDevice.unbind over the function list: for each
function that exists, look up its driver; Ok driver means try to unbind it
(failure aborts with an Unbind error); a NotFound lookup error is skipped;
any other lookup error aborts with a PciDriver error.  A successful unbind
leaves the function driverless (subsequent lookups return NotFound). -/
def unbindFuncs (devId : String) (s : OsState) :
    List String → OsState × Except GraphicsDeviceError Unit
  | [] => (s, Except.ok ())
  | fid :: rest =>
    let st := s.get fid
    if st.pathExists then
      match st.driverResult with
      | Except.ok drv =>
        match st.unbindResult with
        | some why => (s, Except.error (GraphicsDeviceError.Unbind fid drv why))
        | none =>
          unbindFuncs devId
            (s.set fid
              { st with driverResult :=
                  Except.error { kind := IoKind.notFound, msg := "" } })
            rest
      | Except.error why =>
        match why.kind with
        | IoKind.notFound => unbindFuncs devId s rest
        | _ => (s, Except.error (GraphicsDeviceError.PciDriver devId why))
    else unbindFuncs devId s rest

/-- Mirror of GraphicsDevice.unbind. -/
def GraphicsDevice.unbind (d : GraphicsDevice) (s : OsState) :
    OsState × Except GraphicsDeviceError Unit :=
  unbindFuncs d.id s d.functions

/-- Loop body of GraphicsDevice.remove over the function list: for each
function that exists, a successful driver lookup means the function is still
in use, which aborts with a DeviceInUse error naming function and driver; a
NotFound lookup error means no driver is bound, so the function is removed
(failure aborts with a Remove error, success makes its path absent); any
other lookup error aborts with a PciDriver error.  A function whose path
does not exist is skipped (already removed). -/
def removeFuncs (devId : String) (s : OsState) :
    List String → OsState × Except GraphicsDeviceError Unit
  | [] => (s, Except.ok ())
  | fid :: rest =>
    let st := s.get fid
    if st.pathExists then
      match st.driverResult with
      | Except.ok drv =>
        (s, Except.error (GraphicsDeviceError.DeviceInUse fid drv))
      | Except.error why =>
        match why.kind with
        | IoKind.notFound =>
          match st.removeResult with
          | some why2 =>
            (s, Except.error (GraphicsDeviceError.Remove devId why2))
          | none =>
            removeFuncs devId (s.set fid { st with pathExists := false }) rest
        | _ => (s, Except.error (GraphicsDeviceError.PciDriver devId why))
    else removeFuncs devId s rest

/-- Mirror of GraphicsDevice.remove. -/
def GraphicsDevice.remove (d : GraphicsDevice) (s : OsState) :
    OsState × Except GraphicsDeviceError Unit :=
  removeFuncs d.id s d.functions

/-- Mirror of struct Graphics: the topology snapshot, GPU devices bucketed
by vendor.  The PciBus handle carries no data; the outcome of a rescan
request on it is part of Env. -/
structure Graphics where
  amd : List GraphicsDevice
  intel : List GraphicsDevice
  nvidia : List GraphicsDevice
  other : List GraphicsDevice
deriving DecidableEq, Repr

/-- Mirror of struct NvidiaDevice, one entry of supported-gpus.json. -/
structure NvidiaDevice where
  devid : String
  subdeviceid : Option String
  subvendorid : Option String
  name : String
  legacybranch : Option String
  features : List String
deriving DecidableEq, Repr

/-- Results of the OS reads, writes and process spawns that the graphics
operations consume, fixed per run: file contents (or read errors), write
outcomes, and process spawn outcomes (spawn error, or exit status). -/
structure Env where
  modulesResult : Except IoError (List String)
  primeRead : Except IoError String
  primeWrite : Option IoError
  modprobeOpen : Option IoError
  modprobeWrite : Option IoError
  systemctl : Except IoError ExitStatus
  dracutCheck : Except IoError ExitStatus
  dracutRun : Except IoError ExitStatus
  updateInitramfs : Except IoError ExitStatus
  productRead : Except IoError String
  vendorRead : Except IoError String
  deviceIdRead : Except IoError String
  versionRead : Except IoError String
  gpusDb : Except IoError (List NvidiaDevice)
  rescanResult : Option IoError
deriving DecidableEq, Repr

/-- Mirror of Graphics.can_switch. -/
def Graphics.can_switch (g : Graphics) : Bool :=
  !g.nvidia.isEmpty && (!g.intel.isEmpty || !g.amd.isEmpty)

/-- Mirror of Graphics.switchable_or_fail. -/
def Graphics.switchable_or_fail (g : Graphics) :
    Except GraphicsDeviceError Unit :=
  if g.can_switch then Except.ok () else
    Except.error GraphicsDeviceError.NotSwitchable

/-- Mirror of Graphics.get_vendor: consult the loaded kernel modules; if
neither nouveau nor nvidia is loaded report integrated, otherwise read the
PRIME mode file (falling back to the literal nvidia on a read error) and map
its trimmed content.  The self argument is unused, as in the source. -/
def Graphics.get_vendor (_g : Graphics) (env : Env) :
    Except GraphicsDeviceError String :=
  match env.modulesResult with
  | Except.error e => Except.error (GraphicsDeviceError.ModulesFetch e)
  | Except.ok ms =>
    Except.ok
      (if ms.any (fun m => m == "nouveau" || m == "nvidia") then
        let mode := match env.primeRead with
          | Except.ok m => m.trim
          | Except.error _ => ("nvidia")
        if mode == "on-demand" then ("hybrid")
        else if mode == "off" then ("compute")
        else ("nvidia")
      else ("integrated"))

/-- Literal content of static MODPROBE_NVIDIA. -/
def MODPROBE_NVIDIA : String :=
  "# Automatically generated by system76-power\noptions nvidia-drm modeset=1\n"

/-- Literal content of static MODPROBE_HYBRID. -/
def MODPROBE_HYBRID : String :=
  "# Automatically generated by system76-power\nblacklist i2c_nvidia_gpu\nalias i2c_nvidia_gpu off\noptions nvidia NVreg_DynamicPowerManagement=0x02\noptions nvidia-drm modeset=1\n"

/-- Literal content of static MODPROBE_COMPUTE. -/
def MODPROBE_COMPUTE : String :=
  "# Automatically generated by system76-power\nblacklist i2c_nvidia_gpu\nblacklist nvidia-drm\nblacklist nvidia-modeset\nalias i2c_nvidia_gpu off\nalias nvidia-drm off\nalias nvidia-modeset off\noptions nvidia NVreg_DynamicPowerManagement=0x02\n"

/-- Literal content of static MODPROBE_INTEGRATED. -/
def MODPROBE_INTEGRATED : String :=
  "# Automatically generated by system76-power\nblacklist i2c_nvidia_gpu\nblacklist nouveau\nblacklist nvidia\nblacklist nvidia-drm\nblacklist nvidia-modeset\nalias i2c_nvidia_gpu off\nalias nouveau off\nalias nvidia off\nalias nvidia-drm off\nalias nvidia-modeset off\n"

/-- Externally visible file and process operations attempted by set_vendor,
in order, each carrying the data passed to the OS. -/
inductive FsOp where
  | primeWrite (content : String)
  | modprobeWrite (content : String)
  | systemctlRun (action : String)
  | dracutRun
  | updateInitramfsRun
deriving DecidableEq, Repr

/-- PRIME mode string chosen by set_vendor for a requested vendor. -/
def primeModeFor (vendor : String) : String :=
  if vendor == "hybrid" then ("on-demand\n")
  else if vendor == "nvidia" then ("on\n")
  else ("off\n")

/-- Modprobe template chosen by set_vendor for a requested vendor. -/
def modprobeFor (vendor : String) : String :=
  if vendor == "hybrid" then MODPROBE_HYBRID
  else if vendor == "compute" then MODPROBE_COMPUTE
  else if vendor == "nvidia" then MODPROBE_NVIDIA
  else MODPROBE_INTEGRATED

/-- Mirror of Graphics.set_vendor.  Steps in order: gate on switchability;
write the PRIME mode file; open and overwrite the modprobe config with the
template for the vendor; enable or disable nvidia-fallback.service (a
non-zero systemctl exit is only a warning, a spawn failure is fatal); then
rebuild the initramfs, running dracut --force when the presence check
command -v dracut exits 0 and update-initramfs -u otherwise, a non-zero
exit from the tool that ran becoming an UpdateInitramfs error.  Returns the
trace of attempted operations next to the result. -/
def Graphics.set_vendor (g : Graphics) (env : Env) (vendor : String) :
    List FsOp × Except GraphicsDeviceError Unit :=
  match g.switchable_or_fail with
  | Except.error e => ([], Except.error e)
  | Except.ok _ =>
    let mode := primeModeFor vendor
    match env.primeWrite with
    | some why =>
      ([FsOp.primeWrite mode],
        Except.error (GraphicsDeviceError.PrimeModeWrite why))
    | none =>
      match env.modprobeOpen with
      | some why =>
        ([FsOp.primeWrite mode],
          Except.error (GraphicsDeviceError.ModprobeFileOpen why))
      | none =>
        let text := modprobeFor vendor
        match env.modprobeWrite with
        | some why =>
          ([FsOp.primeWrite mode, FsOp.modprobeWrite text],
            Except.error (GraphicsDeviceError.ModprobeFileWrite why))
        | none =>
          let action := if vendor == "nvidia" then ("enable") else ("disable")
          match env.systemctl with
          | Except.error why =>
            ([FsOp.primeWrite mode, FsOp.modprobeWrite text],
              Except.error (GraphicsDeviceError.Command ("systemctl") why))
          | Except.ok _ =>
            let evs := [FsOp.primeWrite mode, FsOp.modprobeWrite text,
              FsOp.systemctlRun action]
            match env.dracutCheck with
            | Except.error why =>
              (evs, Except.error (GraphicsDeviceError.Command ("dracut") why))
            | Except.ok stc =>
              if stc == 0 then
                match env.dracutRun with
                | Except.error why =>
                  (evs ++ [FsOp.dracutRun],
                    Except.error (GraphicsDeviceError.Command ("dracut") why))
                | Except.ok st =>
                  if st == 0 then (evs ++ [FsOp.dracutRun], Except.ok ())
                  else
                    (evs ++ [FsOp.dracutRun],
                      Except.error (GraphicsDeviceError.UpdateInitramfs st))
              else
                match env.updateInitramfs with
                | Except.error why =>
                  (evs ++ [FsOp.updateInitramfsRun],
                    Except.error
                      (GraphicsDeviceError.Command ("update-initramfs") why))
                | Except.ok st =>
                  if st == 0 then
                    (evs ++ [FsOp.updateInitramfsRun], Except.ok ())
                  else
                    (evs ++ [FsOp.updateInitramfsRun],
                      Except.error (GraphicsDeviceError.UpdateInitramfs st))

/-- Mirror of Graphics.get_power: gated on switchability, then true iff any
NVIDIA device currently exists. -/
def Graphics.get_power (g : Graphics) (s : OsState) :
    Except GraphicsDeviceError Bool :=
  match g.switchable_or_fail with
  | Except.error e => Except.error e
  | Except.ok _ =>
    Except.ok (g.nvidia.any (fun d => d.existsOn s))

/-- Device-level operations attempted by set_power(false), in order. -/
inductive PowerEvent where
  | unbindDev (id : String)
  | removeDev (id : String)
deriving DecidableEq, Repr

/-- Run one state-threading device operation over a device list, fail-fast:
each attempted device contributes one trace event, and the first error stops
the iteration (Result.from_iter over a lazy iterator in the source). -/
def runPhase (step : GraphicsDevice → OsState → OsState × Except GraphicsDeviceError Unit)
    (mk : GraphicsDevice → PowerEvent) (s : OsState) :
    List GraphicsDevice → OsState × List PowerEvent × Except GraphicsDeviceError Unit
  | [] => (s, [], Except.ok ())
  | d :: rest =>
    let out := step d s
    match out.2 with
    | Except.error e => (out.1, [mk d], Except.error e)
    | Except.ok _ =>
      let next := runPhase step mk out.1 rest
      (next.1, mk d :: next.2.1, next.2.2)

/-- Unbind phase of set_power(false) over the NVIDIA devices. -/
def runUnbinds (s : OsState) (ds : List GraphicsDevice) :
    OsState × List PowerEvent × Except GraphicsDeviceError Unit :=
  runPhase (fun d s => d.unbind s) (fun d => PowerEvent.unbindDev d.id) s ds

/-- Remove phase of set_power(false) over the NVIDIA devices. -/
def runRemoves (s : OsState) (ds : List GraphicsDevice) :
    OsState × List PowerEvent × Except GraphicsDeviceError Unit :=
  runPhase (fun d s => d.remove s) (fun d => PowerEvent.removeDev d.id) s ds

/-- Mirror of Graphics.set_power: gated on switchability; power on is a bus
rescan; power off chains the per-device unbinds before the per-device
removes and aggregates fail-fast, so the removes run only when every unbind
succeeded. -/
def Graphics.set_power (g : Graphics) (s : OsState) (env : Env)
    (power : Bool) :
    OsState × List PowerEvent × Except GraphicsDeviceError Unit :=
  match g.switchable_or_fail with
  | Except.error e => (s, [], Except.error e)
  | Except.ok _ =>
    if power then
      match env.rescanResult with
      | some why => (s, [], Except.error (GraphicsDeviceError.Rescan why))
      | none => (s, [], Except.ok ())
    else
      let ub := runUnbinds s g.nvidia
      match ub.2.2 with
      | Except.error e => (ub.1, ub.2.1, Except.error e)
      | Except.ok _ =>
        let rm := runRemoves ub.1 g.nvidia
        (rm.1, ub.2.1 ++ rm.2.1, rm.2.2)

/-- Mirror of Graphics.auto_power: set_power(get_vendor() != integrated),
a get_vendor failure aborting before the power step. -/
def Graphics.auto_power (g : Graphics) (s : OsState) (env : Env) :
    OsState × List PowerEvent × Except GraphicsDeviceError Unit :=
  match g.get_vendor env with
  | Except.error e => (s, [], Except.error e)
  | Except.ok v => g.set_power s env (v != "integrated")

/-- Value of one hexadecimal digit. -/
def hexVal (c : Char) : Option Nat :=
  if ('0') ≤ c ∧ c ≤ ('9') then some (c.toNat - 48)
  else if ('a') ≤ c ∧ c ≤ ('f') then some (c.toNat - 87)
  else if ('A') ≤ c ∧ c ≤ ('F') then some (c.toNat - 55)
  else none

/-- Accumulate hexadecimal digits; any non-digit fails. -/
def goHex (acc : Nat) : List Char → Option Nat
  | [] => some acc
  | c :: cs =>
    match hexVal c with
    | some v => goHex (acc * 16 + v) cs
    | none => none

/-- Model of u32 from_str_radix with radix 16: an optional leading plus
sign, then at least one hexadecimal digit, no overflow past 2 to the 32. -/
def parseHexU32 (s : String) : Option Nat :=
  let cs := s.data
  let cs := match cs with
    | ('+') :: rest => rest
    | l => l
  match cs with
  | [] => none
  | _ =>
    match goHex 0 cs with
    | some n => if n < 4294967296 then some n else none
    | none => none

/-- Value of one decimal digit. -/
def decVal (c : Char) : Option Nat :=
  if ('0') ≤ c ∧ c ≤ ('9') then some (c.toNat - 48) else none

/-- Accumulate decimal digits; any non-digit fails. -/
def goDec (acc : Nat) : List Char → Option Nat
  | [] => some acc
  | c :: cs =>
    match decVal c with
    | some v => goDec (acc * 10 + v) cs
    | none => none

/-- Model of u32 str parse (radix 10), same shape as parseHexU32. -/
def parseDecU32 (s : String) : Option Nat :=
  let cs := s.data
  let cs := match cs with
    | ('+') :: rest => rest
    | l => l
  match cs with
  | [] => none
  | _ =>
    match goDec 0 cs with
    | some n => if n < 4294967296 then some n else none
    | none => none

/-- Model of str trim_start_matches with pattern 0x: strip every leading
occurrence of the two characters 0x. -/
def strip0xChars : List Char → List Char
  | ('0') :: ('x') :: rest => strip0xChars rest
  | l => l

/-- String wrapper for strip0xChars. -/
def strip0x (s : String) : String := String.mk (strip0xChars s.data)

/-- Mirror of Graphics.nvidia_version: read /sys/module/nvidia/version and
trim it. -/
def Graphics.nvidia_version (_g : Graphics) (env : Env) :
    Except GraphicsDeviceError String :=
  match env.versionRead with
  | Except.error e => Except.error (GraphicsDeviceError.SysFs e)
  | Except.ok s => Except.ok s.trim

/-- Mirror of Graphics.get_nvidia_device_id: index the first NVIDIA device
(none models the index panic when the bucket is empty), read its sysfs
device file, strip leading 0x occurrences, trim, and parse as a hex u32,
a parse failure becoming a SysFs InvalidData error. -/
def Graphics.get_nvidia_device_id (g : Graphics) (env : Env) :
    Option (Except GraphicsDeviceError Nat) :=
  match g.nvidia[0]? with
  | none => none
  | some _ =>
    some
      (match env.deviceIdRead with
      | Except.error why => Except.error (GraphicsDeviceError.SysFs why)
      | Except.ok content =>
        match parseHexU32 ((strip0x content).trim) with
        | some n => Except.ok n
        | none =>
          Except.error
            (GraphicsDeviceError.SysFs
              { kind := IoKind.invalidData, msg := "invalid digit" }))

/-- Mirror of Graphics.get_nvidia_device: read the driver version, take the
leading major component (0 when unparsable), load the supported-gpus
database for that major version (its parse by serde is part of the provided
read result), and return the first chip whose devid parses to the wanted
id, chips with unparsable devid comparing as 0; no match is a Json NotFound
error. -/
def Graphics.get_nvidia_device (g : Graphics) (env : Env) (id : Nat) :
    Except GraphicsDeviceError NvidiaDevice :=
  match g.nvidia_version env with
  | Except.error e => Except.error e
  | Except.ok version =>
    let _major := (parseDecU32 ((version.splitOn (".")).headD (""))).getD 0
    match env.gpusDb with
    | Except.error e => Except.error (GraphicsDeviceError.Json e)
    | Except.ok chips =>
      match chips.find?
          (fun dev => ((parseHexU32 ((strip0x dev.devid).trim)).getD 0) == id) with
      | some dev => Except.ok dev
      | none =>
        Except.error
          (GraphicsDeviceError.Json
            { kind := IoKind.notFound, msg := "GPU device not found" })

/-- Mirror of Graphics.gpu_supports_runtimepm: device id, then database
entry, then membership of runtimepm in its feature list. -/
def Graphics.gpu_supports_runtimepm (g : Graphics) (env : Env) :
    Option (Except GraphicsDeviceError Bool) :=
  match g.get_nvidia_device_id env with
  | none => none
  | some (Except.error e) => some (Except.error e)
  | some (Except.ok id) =>
    some
      (match g.get_nvidia_device env id with
      | Except.error e => Except.error e
      | Except.ok dev => Except.ok (dev.features.contains ("runtimepm")))

/-- Model exclusion list DEFAULT_INTEGRATED, empty in the source. -/
def DEFAULT_INTEGRATED : List String := []

/-- Mirror of Graphics.get_default_graphics: gated on switchability; read
and trim the product version (failure is fatal); look up runtime power
management support, any lookup failure degrading to unsupported; read and
trim the system vendor (failure is fatal); then the decision table.  The
outer none models the index panic propagating out of the lookup. -/
def Graphics.get_default_graphics (g : Graphics) (env : Env) :
    Option (Except GraphicsDeviceError String) :=
  match g.switchable_or_fail with
  | Except.error e => some (Except.error e)
  | Except.ok _ =>
    match env.productRead with
    | Except.error why => some (Except.error (GraphicsDeviceError.SysFs why))
    | Except.ok p =>
      let product := p.trim
      let blacklisted := DEFAULT_INTEGRATED.contains product
      match g.gpu_supports_runtimepm env with
      | none => none
      | some rt =>
        let runtimepm := match rt with
          | Except.ok b => b
          | Except.error _ => false
        match env.vendorRead with
        | Except.error why =>
          some (Except.error (GraphicsDeviceError.SysFs why))
        | Except.ok v =>
          let vendor := v.trim
          some
            (Except.ok
              (if vendor ≠ ("System76") then ("nvidia")
              else if runtimepm && !blacklisted then ("hybrid")
              else ("integrated")))

/-- Mirror of Graphics.get_external_displays_require_dgpu: gated on
switchability, read the product version, and test membership of the trimmed
model in the REQUIRES_NVIDIA allow-list.  The list lives in the hotplug
module, outside the shown sources, so it is taken as a parameter. -/
def Graphics.get_external_displays_require_dgpu (g : Graphics) (env : Env)
    (requiresNvidia : List String) : Except GraphicsDeviceError Bool :=
  match g.switchable_or_fail with
  | Except.error e => Except.error e
  | Except.ok _ =>
    match env.productRead with
    | Except.error why => Except.error (GraphicsDeviceError.SysFs why)
    | Except.ok model => Except.ok (requiresNvidia.contains model.trim)

/-- One public operation on a Graphics value, for stating frame properties
uniformly. -/
inductive GfxOp where
  | opSetVendor (vendor : String)
  | opSetPower (power : Bool)
  | opAutoPower
  | opGetPower
  | opGetVendor
  | opGetDefaultGraphics
  | opGetExternalDisplays (allow : List String)
deriving DecidableEq, Repr

/-- Result of one public operation. -/
inductive GfxOut where
  | unitOut (r : Except GraphicsDeviceError Unit)
  | boolOut (r : Except GraphicsDeviceError Bool)
  | stringOut (r : Except GraphicsDeviceError String)
  | panicOut
deriving DecidableEq, Repr

/-- Dispatch one public operation, returning the topology snapshot, the
kernel-side state, and the result.  Every method of the source takes the
Graphics value by shared reference and the struct has no interior
mutability, so the snapshot component is the input snapshot in every arm;
only the OsState (and, outside this model, files and services) changes. -/
def runGfxOp (g : Graphics) (s : OsState) (env : Env) (op : GfxOp) :
    Graphics × OsState × GfxOut :=
  match op with
  | GfxOp.opSetVendor v => (g, s, GfxOut.unitOut (g.set_vendor env v).2)
  | GfxOp.opSetPower b =>
    (g, (g.set_power s env b).1, GfxOut.unitOut (g.set_power s env b).2.2)
  | GfxOp.opAutoPower =>
    (g, (g.auto_power s env).1, GfxOut.unitOut (g.auto_power s env).2.2)
  | GfxOp.opGetPower => (g, s, GfxOut.boolOut (g.get_power s))
  | GfxOp.opGetVendor => (g, s, GfxOut.stringOut (g.get_vendor env))
  | GfxOp.opGetDefaultGraphics =>
    (g, s,
      match g.get_default_graphics env with
      | none => GfxOut.panicOut
      | some r => GfxOut.stringOut r)
  | GfxOp.opGetExternalDisplays allow =>
    (g, s, GfxOut.boolOut (g.get_external_displays_require_dgpu env allow))

/-- A function state that the remove loop passes without aborting and
without leaving the function behind: either the path is already absent, or
the driver lookup reports NotFound and the removal itself succeeds. -/
def removePasses (st : FuncState) : Bool :=
  !st.pathExists ||
    (match st.driverResult with
    | Except.error why =>
      (match why.kind with
      | IoKind.notFound => st.removeResult.isNone
      | _ => false)
    | Except.ok _ => false)

theorem removeFuncs_absent (devId : String) (s : OsState)
    (fids : List String)
    (h : ∀ fid ∈ fids, (s.get fid).pathExists = false) :
    removeFuncs devId s fids = (s, Except.ok ()) := by
  induction fids with
  | nil => rfl
  | cons fid rest ih =>
    have h0 : (s.get fid).pathExists = false := h fid (by simp)
    have hr : ∀ f ∈ rest, (s.get f).pathExists = false :=
      fun f hf => h f (by simp [hf])
    simp [removeFuncs, h0, ih hr]

theorem removeFuncs_bound (devId : String) (pre : List String) :
    ∀ (s : OsState) (post : List String) (f drv : String),
    (pre ++ f :: post).Nodup →
    (∀ fid ∈ pre, removePasses (s.get fid) = true) →
    (s.get f).pathExists = true →
    (s.get f).driverResult = Except.ok drv →
    (removeFuncs devId s (pre ++ f :: post)).2 =
        Except.error (GraphicsDeviceError.DeviceInUse f drv) ∧
      (∀ fid, fid ∉ pre →
        (removeFuncs devId s (pre ++ f :: post)).1.get fid = s.get fid) ∧
      (∀ fid ∈ pre,
        (removeFuncs devId s (pre ++ f :: post)).1.get fid =
          (if (s.get fid).pathExists then
            { s.get fid with pathExists := false }
          else s.get fid)) := by
  induction pre with
  | nil =>
    intro s post f drv _ _ hf hdrv
    refine ⟨by simp [removeFuncs, hf, hdrv], fun fid _ => ?_, by simp⟩
    simp [removeFuncs, hf, hdrv]
  | cons p pre ih =>
    intro s post f drv hnodup hpre hf hdrv
    have hnd : p ∉ pre ++ f :: post ∧ (pre ++ f :: post).Nodup := by
      simpa [List.nodup_cons] using hnodup
    have hpf : p ≠ f := by
      intro he; exact hnd.1 (by simp [he])
    have hppre : p ∉ pre := fun hm => hnd.1 (by simp [hm])
    have hp : removePasses (s.get p) = true := hpre p (by simp)
    by_cases hpath : (s.get p).pathExists
    · -- the head function exists, so removePasses forces a clean removal
      rcases hdp : (s.get p).driverResult with why | dr
      · rcases hk : why.kind with _ | _ | code
        · have hrem : (s.get p).removeResult = none := by
            have := hp
            simp [removePasses, hpath, hdp, hk, Option.isNone_iff_eq_none]
              at this
            exact this
          -- the loop removes p and recurses on the shadowed state
          have hred :
              removeFuncs devId s ((p :: pre) ++ f :: post) =
                removeFuncs devId
                  (s.set p { s.get p with pathExists := false })
                  (pre ++ f :: post) := by
            simp [removeFuncs, hpath, hdp, hk, hrem]
          set s' := s.set p { s.get p with pathExists := false } with hs'
          have hget : ∀ fid, fid ≠ p → s'.get fid = s.get fid :=
            fun fid hne => OsState.get_set_ne s p fid _ hne
          have hpre' : ∀ fid ∈ pre, removePasses (s'.get fid) = true := by
            intro fid hm
            have hne : fid ≠ p := fun he => hppre (he ▸ hm)
            rw [hget fid hne]; exact hpre fid (by simp [hm])
          have hf' : (s'.get f).pathExists = true := by
            rw [hget f (Ne.symm hpf)]; exact hf
          have hdrv' : (s'.get f).driverResult = Except.ok drv := by
            rw [hget f (Ne.symm hpf)]; exact hdrv
          obtain ⟨c1, c2, c3⟩ := ih s' post f drv hnd.2 hpre' hf' hdrv'
          refine ⟨by rw [hred]; exact c1, ?_, ?_⟩
          · intro fid hm
            have hm1 : fid ∉ pre := fun hx => hm (by simp [hx])
            have hne : fid ≠ p := fun he => hm (by simp [he])
            rw [hred, c2 fid hm1, hget fid hne]
          · intro fid hm
            rcases List.mem_cons.mp hm with he | hm'
            · subst he
              rw [hred, c2 fid hppre, OsState.get_set_self, if_pos hpath]
            · have hne : fid ≠ p := fun he => hppre (he ▸ hm')
              rw [hred, c3 fid hm', hget fid hne]
        · simp [removePasses, hpath, hdp, hk] at hp
        · simp [removePasses, hpath, hdp, hk] at hp
      · simp [removePasses, hpath, hdp] at hp
    · -- the head function is already absent and is skipped
      have hred :
          removeFuncs devId s ((p :: pre) ++ f :: post) =
            removeFuncs devId s (pre ++ f :: post) := by
        simp [removeFuncs, hpath]
      have hpre' : ∀ fid ∈ pre, removePasses (s.get fid) = true :=
        fun fid hm => hpre fid (by simp [hm])
      obtain ⟨c1, c2, c3⟩ := ih s post f drv hnd.2 hpre' hf hdrv
      refine ⟨by rw [hred]; exact c1, ?_, ?_⟩
      · intro fid hm
        have hm1 : fid ∉ pre := fun hx => hm (by simp [hx])
        rw [hred, c2 fid hm1]
      · intro fid hm
        rcases List.mem_cons.mp hm with he | hm'
        · subst he
          rw [hred, c2 fid hppre, if_neg hpath]
        · rw [hred, c3 fid hm']

/-- Fixture for claim C1: a device whose first function exists with no
bound driver and whose second function exists with a bound driver. -/
def exS : OsState :=
  { funcs :=
      [(("f0"),
        { pathExists := true
          driverResult := Except.error { kind := IoKind.notFound, msg := "" }
          unbindResult := none
          removeResult := none }),
      (("f1"),
        { pathExists := true
          driverResult := Except.ok ("nvidia")
          unbindResult := none
          removeResult := none })] }

/-- Device of the claim C1 fixture. -/
def exD : GraphicsDevice := { id := ("d0"), functions := [("f0"), ("f1")] }

/-- C1, counterexample: on a device whose second function still has a bound
driver, remove() does return the device-in-use error naming that function
and driver, but the first function, which existed with no bound driver, has
been removed, so the device's bus presence is not unchanged on error. -/
theorem claim1_counterexample :
    ((exD.remove exS).2 =
      Except.error (GraphicsDeviceError.DeviceInUse ("f1") ("nvidia"))) ∧
    (exS.get ("f0")).pathExists = true ∧
    ((exD.remove exS).1.get ("f0")).pathExists = false := by
  decide

/-- C1, amended: when the function sequence of a device (with distinct
function ids) reaches a function that exists with a bound driver, every
earlier function being either absent or cleanly removable, remove() returns
the device-in-use error naming that function and its driver, leaves that
function, all later functions and all unrelated functions untouched, but
has already removed the earlier existing driverless functions. -/
theorem claim1_remove_device_in_use (d : GraphicsDevice) (s : OsState)
    (pre post : List String) (f drv : String)
    (hfun : d.functions = pre ++ f :: post)
    (hnodup : d.functions.Nodup)
    (hpre : ∀ fid ∈ pre, removePasses (s.get fid) = true)
    (hf : (s.get f).pathExists = true)
    (hdrv : (s.get f).driverResult = Except.ok drv) :
    (d.remove s).2 =
        Except.error (GraphicsDeviceError.DeviceInUse f drv) ∧
      (∀ fid, fid ∉ pre → (d.remove s).1.get fid = s.get fid) ∧
      (∀ fid ∈ pre,
        (d.remove s).1.get fid =
          (if (s.get fid).pathExists then
            { s.get fid with pathExists := false }
          else s.get fid)) := by
  have h := removeFuncs_bound d.id pre s post f drv (hfun ▸ hnodup)
    hpre hf hdrv
  simpa [GraphicsDevice.remove, hfun] using h

/-- Witness for the amended C1, on the fixture device. -/
theorem claim1_remove_device_in_use_witness :
    (exD.remove exS).2 =
        Except.error (GraphicsDeviceError.DeviceInUse ("f1") ("nvidia")) ∧
      (∀ fid, fid ∉ [("f0")] → (exD.remove exS).1.get fid = exS.get fid) ∧
      (∀ fid ∈ [("f0")],
        (exD.remove exS).1.get fid =
          (if (exS.get fid).pathExists then
            { exS.get fid with pathExists := false }
          else exS.get fid)) :=
  claim1_remove_device_in_use exD exS [("f0")] [] ("f1") ("nvidia")
    (by decide) (by decide) (by decide) (by decide) (by decide)

/-- C8: remove() is a successful no-op on a device none of whose functions
currently exists, and calling it again on the resulting state is again a
successful no-op. -/
theorem claim8_remove_idempotent_on_absent (d : GraphicsDevice)
    (s : OsState)
    (h : ∀ fid ∈ d.functions, (s.get fid).pathExists = false) :
    d.remove s = (s, Except.ok ()) ∧
      d.remove (d.remove s).1 = (s, Except.ok ()) := by
  have h1 : d.remove s = (s, Except.ok ()) :=
    removeFuncs_absent d.id s d.functions h
  exact ⟨h1, by rw [h1]; exact h1⟩

/-- Witness for C8 on a concrete absent device. -/
theorem claim8_remove_idempotent_on_absent_witness :
    GraphicsDevice.remove { id := ("d0"), functions := [("f0"), ("f1")] }
        { funcs := [] } =
      ({ funcs := [] }, Except.ok ()) ∧
      GraphicsDevice.remove { id := ("d0"), functions := [("f0"), ("f1")] }
        (GraphicsDevice.remove { id := ("d0"), functions := [("f0"), ("f1")] }
          { funcs := [] }).1 =
      ({ funcs := [] }, Except.ok ()) :=
  claim8_remove_idempotent_on_absent
    { id := ("d0"), functions := [("f0"), ("f1")] } { funcs := [] }
    (by decide)

/-- Full operation sequence of set_power(false): every unbind, in device
order, then every remove, in device order. -/
def powerOffOps (ds : List GraphicsDevice) : List PowerEvent :=
  ds.map (fun d => PowerEvent.unbindDev d.id) ++
    ds.map (fun d => PowerEvent.removeDev d.id)

theorem runPhase_trace_prefix
    (step : GraphicsDevice → OsState → OsState × Except GraphicsDeviceError Unit)
    (mk : GraphicsDevice → PowerEvent) (ds : List GraphicsDevice) :
    ∀ s : OsState, ∃ t, (runPhase step mk s ds).2.1 ++ t = ds.map mk := by
  induction ds with
  | nil => intro s; exact ⟨[], rfl⟩
  | cons d rest ih =>
    intro s
    cases hstep : (step d s).2 with
    | error e =>
      refine ⟨rest.map mk, ?_⟩
      simp [runPhase, hstep]
    | ok u =>
      obtain ⟨t, ht⟩ := ih (step d s).1
      refine ⟨t, ?_⟩
      simp [runPhase, hstep, ht]

theorem runPhase_ok_trace
    (step : GraphicsDevice → OsState → OsState × Except GraphicsDeviceError Unit)
    (mk : GraphicsDevice → PowerEvent) (ds : List GraphicsDevice) :
    ∀ s : OsState, (runPhase step mk s ds).2.2 = Except.ok () →
      (runPhase step mk s ds).2.1 = ds.map mk := by
  induction ds with
  | nil => intro s _; rfl
  | cons d rest ih =>
    intro s h
    cases hstep : (step d s).2 with
    | error e => simp [runPhase, hstep] at h
    | ok u =>
      simp [runPhase, hstep] at h ⊢
      exact ih (step d s).1 h

theorem runPhase_append_ok
    (step : GraphicsDevice → OsState → OsState × Except GraphicsDeviceError Unit)
    (mk : GraphicsDevice → PowerEvent) (a : List GraphicsDevice) :
    ∀ (s : OsState) (b : List GraphicsDevice),
    (runPhase step mk s a).2.2 = Except.ok () →
    runPhase step mk s (a ++ b) =
      ((runPhase step mk (runPhase step mk s a).1 b).1,
        (runPhase step mk s a).2.1 ++
          (runPhase step mk (runPhase step mk s a).1 b).2.1,
        (runPhase step mk (runPhase step mk s a).1 b).2.2) := by
  induction a with
  | nil => intro s b _; simp [runPhase]
  | cons d rest ih =>
    intro s b h
    cases hstep : (step d s).2 with
    | error e => simp [runPhase, hstep] at h
    | ok u =>
      have h2 : (runPhase step mk (step d s).1 rest).2.2 = Except.ok () := by
        simpa [runPhase, hstep] using h
      simp only [List.cons_append, runPhase, hstep, List.append_eq]
      rw [ih (step d s).1 b h2]

theorem runUnbinds_trace_prefix (ds : List GraphicsDevice) (s : OsState) :
    ∃ t, (runUnbinds s ds).2.1 ++ t =
      ds.map (fun d => PowerEvent.unbindDev d.id) :=
  runPhase_trace_prefix _ _ ds s

theorem runUnbinds_ok_trace (ds : List GraphicsDevice) (s : OsState)
    (h : (runUnbinds s ds).2.2 = Except.ok ()) :
    (runUnbinds s ds).2.1 = ds.map (fun d => PowerEvent.unbindDev d.id) :=
  runPhase_ok_trace _ _ ds s h

theorem runUnbinds_append_ok (a : List GraphicsDevice) (s : OsState)
    (b : List GraphicsDevice) (h : (runUnbinds s a).2.2 = Except.ok ()) :
    runUnbinds s (a ++ b) =
      ((runUnbinds (runUnbinds s a).1 b).1,
        (runUnbinds s a).2.1 ++ (runUnbinds (runUnbinds s a).1 b).2.1,
        (runUnbinds (runUnbinds s a).1 b).2.2) :=
  runPhase_append_ok _ _ a s b h

theorem runUnbinds_cons_err (d : GraphicsDevice)
    (rest : List GraphicsDevice) (s : OsState) (e : GraphicsDeviceError)
    (h : (d.unbind s).2 = Except.error e) :
    runUnbinds s (d :: rest) =
      ((d.unbind s).1, [PowerEvent.unbindDev d.id], Except.error e) := by
  simp [runUnbinds, runPhase, h]

theorem runRemoves_trace_prefix (ds : List GraphicsDevice) (s : OsState) :
    ∃ t, (runRemoves s ds).2.1 ++ t =
      ds.map (fun d => PowerEvent.removeDev d.id) :=
  runPhase_trace_prefix _ _ ds s

theorem runRemoves_ok_trace (ds : List GraphicsDevice) (s : OsState)
    (h : (runRemoves s ds).2.2 = Except.ok ()) :
    (runRemoves s ds).2.1 = ds.map (fun d => PowerEvent.removeDev d.id) :=
  runPhase_ok_trace _ _ ds s h

theorem runRemoves_append_ok (a : List GraphicsDevice) (s : OsState)
    (b : List GraphicsDevice) (h : (runRemoves s a).2.2 = Except.ok ()) :
    runRemoves s (a ++ b) =
      ((runRemoves (runRemoves s a).1 b).1,
        (runRemoves s a).2.1 ++ (runRemoves (runRemoves s a).1 b).2.1,
        (runRemoves (runRemoves s a).1 b).2.2) :=
  runPhase_append_ok _ _ a s b h

theorem runRemoves_cons_err (d : GraphicsDevice)
    (rest : List GraphicsDevice) (s : OsState) (e : GraphicsDeviceError)
    (h : (d.remove s).2 = Except.error e) :
    runRemoves s (d :: rest) =
      ((d.remove s).1, [PowerEvent.removeDev d.id], Except.error e) := by
  simp [runRemoves, runPhase, h]

/-- C3: with a switchable snapshot, the trace of set_power(false) is a
prefix of the full unbind-all-then-remove-all sequence (so every attempted
unbind precedes every attempted remove and nothing past the first failure
is attempted); on success the whole sequence ran; when the unbind of the
device after a cleanly unbound prefix fails, that device's specific unbind
error is returned and the trace stops right there; and when, all unbinds
having succeeded, the remove of the device after a cleanly removed prefix
fails, that device's specific remove error is returned and the trace is
exactly every unbind, the removes of the clean prefix, then that failing
remove — no later remove is attempted. -/
theorem claim3_set_power_off_failfast (g : Graphics) (s : OsState)
    (env : Env) (hs : g.can_switch = true) :
    (∃ t, (g.set_power s env false).2.1 ++ t = powerOffOps g.nvidia) ∧
    ((g.set_power s env false).2.2 = Except.ok () →
      (g.set_power s env false).2.1 = powerOffOps g.nvidia) ∧
    (∀ pre d post e, g.nvidia = pre ++ d :: post →
      (runUnbinds s pre).2.2 = Except.ok () →
      (d.unbind (runUnbinds s pre).1).2 = Except.error e →
      (g.set_power s env false).2.2 = Except.error e ∧
      (g.set_power s env false).2.1 =
        pre.map (fun x => PowerEvent.unbindDev x.id) ++
          [PowerEvent.unbindDev d.id]) ∧
    (∀ pre d post e, g.nvidia = pre ++ d :: post →
      (runUnbinds s g.nvidia).2.2 = Except.ok () →
      (runRemoves (runUnbinds s g.nvidia).1 pre).2.2 = Except.ok () →
      (d.remove (runRemoves (runUnbinds s g.nvidia).1 pre).1).2 =
        Except.error e →
      (g.set_power s env false).2.2 = Except.error e ∧
      (g.set_power s env false).2.1 =
        g.nvidia.map (fun x => PowerEvent.unbindDev x.id) ++
          (pre.map (fun x => PowerEvent.removeDev x.id) ++
            [PowerEvent.removeDev d.id])) := by
  refine ⟨?_, ?_, ?_, ?_⟩
  · cases hub : (runUnbinds s g.nvidia).2.2 with
    | error e =>
      obtain ⟨t1, ht1⟩ := runUnbinds_trace_prefix g.nvidia s
      refine ⟨t1 ++ g.nvidia.map (fun d => PowerEvent.removeDev d.id), ?_⟩
      simp only [Graphics.set_power, Graphics.switchable_or_fail, hs,
        if_true, Bool.false_eq_true, if_false, hub]
      rw [powerOffOps, ← List.append_assoc]
      exact congrArg (fun l => l ++ _) ht1
    | ok u =>
      obtain ⟨t2, ht2⟩ :=
        runRemoves_trace_prefix g.nvidia (runUnbinds s g.nvidia).1
      refine ⟨t2, ?_⟩
      have hu := runUnbinds_ok_trace g.nvidia s hub
      simp only [Graphics.set_power, Graphics.switchable_or_fail, hs,
        if_true, Bool.false_eq_true, if_false, hub]
      rw [powerOffOps, List.append_assoc]
      exact congrArg₂ (fun l1 l2 => l1 ++ l2) hu ht2
  · intro hok
    cases hub : (runUnbinds s g.nvidia).2.2 with
    | error e =>
      simp [Graphics.set_power, Graphics.switchable_or_fail, hs, hub] at hok
    | ok u =>
      have hrm : (runRemoves (runUnbinds s g.nvidia).1 g.nvidia).2.2 =
          Except.ok () := by
        simpa [Graphics.set_power, Graphics.switchable_or_fail, hs, hub]
          using hok
      have hu := runUnbinds_ok_trace g.nvidia s hub
      have hr := runRemoves_ok_trace g.nvidia (runUnbinds s g.nvidia).1 hrm
      simp [Graphics.set_power, Graphics.switchable_or_fail, hs, hub,
        powerOffOps, hu, hr]
  · intro pre d post e hnv hpreok herr
    have hub : runUnbinds s g.nvidia =
        ((d.unbind (runUnbinds s pre).1).1,
          pre.map (fun x => PowerEvent.unbindDev x.id) ++
            [PowerEvent.unbindDev d.id],
          Except.error e) := by
      rw [hnv, runUnbinds_append_ok pre s (d :: post) hpreok,
        runUnbinds_cons_err d post (runUnbinds s pre).1 e herr,
        runUnbinds_ok_trace pre s hpreok]
    constructor
    · simp [Graphics.set_power, Graphics.switchable_or_fail, hs, hub]
    · simp [Graphics.set_power, Graphics.switchable_or_fail, hs, hub]
  · intro pre d post e hnv hubok hrmpre herr
    have hrmfull : runRemoves (runUnbinds s g.nvidia).1 g.nvidia =
        ((d.remove (runRemoves (runUnbinds s g.nvidia).1 pre).1).1,
          pre.map (fun x => PowerEvent.removeDev x.id) ++
            [PowerEvent.removeDev d.id],
          Except.error e) := by
      rw [hnv] at hrmpre herr ⊢
      rw [runRemoves_append_ok pre (runUnbinds s (pre ++ d :: post)).1
        (d :: post) hrmpre]
      rw [runRemoves_cons_err d post
        (runRemoves (runUnbinds s (pre ++ d :: post)).1 pre).1 e herr]
      rw [runRemoves_ok_trace pre (runUnbinds s (pre ++ d :: post)).1
        hrmpre]
    have hubEvs := runUnbinds_ok_trace g.nvidia s hubok
    constructor
    · simp [Graphics.set_power, Graphics.switchable_or_fail, hs, hubok,
        hrmfull]
    · simp [Graphics.set_power, Graphics.switchable_or_fail, hs, hubok,
        hrmfull, hubEvs]

/-- An environment where every read, write and spawn succeeds. -/
def env0 : Env :=
  { modulesResult := Except.ok []
    primeRead := Except.ok ("")
    primeWrite := none
    modprobeOpen := none
    modprobeWrite := none
    systemctl := Except.ok 0
    dracutCheck := Except.ok 0
    dracutRun := Except.ok 0
    updateInitramfs := Except.ok 0
    productRead := Except.ok ("")
    vendorRead := Except.ok ("")
    deviceIdRead := Except.ok ("0x1234")
    versionRead := Except.ok ("560.35.03")
    gpusDb := Except.ok []
    rescanResult := none }

/-- A switchable topology fixture: one NVIDIA and one Intel device. -/
def g0 : Graphics :=
  { amd := []
    intel := [{ id := ("i0"), functions := [] }]
    nvidia := [{ id := ("n0"), functions := [] }]
    other := [] }

/-- Witness for C3 on the switchable fixture. -/
theorem claim3_set_power_off_failfast_witness :
    (∃ t, (g0.set_power { funcs := [] } env0 false).2.1 ++ t =
      powerOffOps g0.nvidia) ∧
    ((g0.set_power { funcs := [] } env0 false).2.2 = Except.ok () →
      (g0.set_power { funcs := [] } env0 false).2.1 =
        powerOffOps g0.nvidia) ∧
    (∀ pre d post e, g0.nvidia = pre ++ d :: post →
      (runUnbinds { funcs := [] } pre).2.2 = Except.ok () →
      (d.unbind (runUnbinds { funcs := [] } pre).1).2 = Except.error e →
      (g0.set_power { funcs := [] } env0 false).2.2 = Except.error e ∧
      (g0.set_power { funcs := [] } env0 false).2.1 =
        pre.map (fun x => PowerEvent.unbindDev x.id) ++
          [PowerEvent.unbindDev d.id]) ∧
    (∀ pre d post e, g0.nvidia = pre ++ d :: post →
      (runUnbinds { funcs := [] } g0.nvidia).2.2 = Except.ok () →
      (runRemoves (runUnbinds { funcs := [] } g0.nvidia).1 pre).2.2 =
        Except.ok () →
      (d.remove
          (runRemoves (runUnbinds { funcs := [] } g0.nvidia).1 pre).1).2 =
        Except.error e →
      (g0.set_power { funcs := [] } env0 false).2.2 = Except.error e ∧
      (g0.set_power { funcs := [] } env0 false).2.1 =
        g0.nvidia.map (fun x => PowerEvent.unbindDev x.id) ++
          (pre.map (fun x => PowerEvent.removeDev x.id) ++
            [PowerEvent.removeDev d.id])) :=
  claim3_set_power_off_failfast g0 { funcs := [] } env0 (by decide)

theorem can_switch_iff (g : Graphics) :
    g.can_switch = true ↔ g.nvidia ≠ [] ∧ (g.amd ≠ [] ∨ g.intel ≠ []) := by
  have h1 : ∀ l : List GraphicsDevice, l.isEmpty = false ↔ l ≠ [] := by
    intro l; cases l <;> simp
  simp only [Graphics.can_switch, Bool.and_eq_true, Bool.or_eq_true,
    Bool.not_eq_true', h1]
  tauto

theorem unbindFuncs_no_ns (devId : String) (fids : List String) :
    ∀ s, (unbindFuncs devId s fids).2 ≠
      Except.error GraphicsDeviceError.NotSwitchable := by
  induction fids with
  | nil => intro s; simp [unbindFuncs]
  | cons fid rest ih =>
    intro s
    simp only [unbindFuncs]
    repeat' split
    all_goals first | exact ih _ | simp

theorem removeFuncs_no_ns (devId : String) (fids : List String) :
    ∀ s, (removeFuncs devId s fids).2 ≠
      Except.error GraphicsDeviceError.NotSwitchable := by
  induction fids with
  | nil => intro s; simp [removeFuncs]
  | cons fid rest ih =>
    intro s
    simp only [removeFuncs]
    repeat' split
    all_goals first | exact ih _ | simp

theorem runPhase_no_ns
    (step : GraphicsDevice → OsState → OsState × Except GraphicsDeviceError Unit)
    (mk : GraphicsDevice → PowerEvent)
    (hstep : ∀ d s, (step d s).2 ≠
      Except.error GraphicsDeviceError.NotSwitchable)
    (ds : List GraphicsDevice) :
    ∀ s, (runPhase step mk s ds).2.2 ≠
      Except.error GraphicsDeviceError.NotSwitchable := by
  induction ds with
  | nil => intro s; simp [runPhase]
  | cons d rest ih =>
    intro s
    cases hst : (step d s).2 with
    | error e =>
      have h2 := hstep d s
      rw [hst] at h2
      simpa [runPhase, hst] using h2
    | ok u => simpa [runPhase, hst] using ih (step d s).1

theorem set_power_no_ns (g : Graphics) (s : OsState) (env : Env)
    (b : Bool) (hs : g.can_switch = true) :
    (g.set_power s env b).2.2 ≠
      Except.error GraphicsDeviceError.NotSwitchable := by
  have hu : ∀ (d : GraphicsDevice) (s1 : OsState),
      (d.unbind s1).2 ≠ Except.error GraphicsDeviceError.NotSwitchable :=
    fun d s1 => unbindFuncs_no_ns d.id d.functions s1
  have hr : ∀ (d : GraphicsDevice) (s1 : OsState),
      (d.remove s1).2 ≠ Except.error GraphicsDeviceError.NotSwitchable :=
    fun d s1 => removeFuncs_no_ns d.id d.functions s1
  cases b with
  | true =>
    cases hres : env.rescanResult with
    | none =>
      simp [Graphics.set_power, Graphics.switchable_or_fail, hs, hres]
    | some why =>
      simp [Graphics.set_power, Graphics.switchable_or_fail, hs, hres]
  | false =>
    cases hub : (runUnbinds s g.nvidia).2.2 with
    | error e =>
      have h2 := runPhase_no_ns (fun d s => d.unbind s)
        (fun d => PowerEvent.unbindDev d.id) hu g.nvidia s
      rw [show (runPhase (fun d s => d.unbind s)
          (fun d => PowerEvent.unbindDev d.id) s g.nvidia).2.2 =
          Except.error e from hub] at h2
      simpa [Graphics.set_power, Graphics.switchable_or_fail, hs, hub]
        using h2
    | ok u =>
      have h2 := runPhase_no_ns (fun d s => d.remove s)
        (fun d => PowerEvent.removeDev d.id) hr g.nvidia
        (runUnbinds s g.nvidia).1
      simpa [Graphics.set_power, Graphics.switchable_or_fail, hs, hub]
        using h2

theorem set_vendor_no_ns (g : Graphics) (env : Env) (v : String)
    (hs : g.can_switch = true) :
    (g.set_vendor env v).2 ≠
      Except.error GraphicsDeviceError.NotSwitchable := by
  simp only [Graphics.set_vendor, Graphics.switchable_or_fail, hs, if_true]
  repeat' split
  all_goals simp

/-- C2: can_switch holds exactly when the NVIDIA bucket is non-empty and at
least one of the AMD and Intel buckets is non-empty, and each operation
gated by switchable_or_fail yields the NotSwitchable error exactly when
can_switch is false: set_vendor, set_power, the power step of auto_power
(whose NotSwitchable outcome additionally requires get_vendor to have
succeeded, a modules-fetch failure pre-empting the gate), get_power,
get_default_graphics and get_external_displays_require_dgpu. -/
theorem claim2_switchable_gating (g : Graphics) (s : OsState) (env : Env) :
    (g.can_switch = true ↔
      g.nvidia ≠ [] ∧ (g.amd ≠ [] ∨ g.intel ≠ [])) ∧
    (∀ v, (g.set_vendor env v).2 =
        Except.error GraphicsDeviceError.NotSwitchable ↔
      g.can_switch = false) ∧
    (∀ b, (g.set_power s env b).2.2 =
        Except.error GraphicsDeviceError.NotSwitchable ↔
      g.can_switch = false) ∧
    ((g.auto_power s env).2.2 =
        Except.error GraphicsDeviceError.NotSwitchable ↔
      (g.can_switch = false ∧ ∃ v, g.get_vendor env = Except.ok v)) ∧
    (g.get_power s = Except.error GraphicsDeviceError.NotSwitchable ↔
      g.can_switch = false) ∧
    (g.get_default_graphics env =
        some (Except.error GraphicsDeviceError.NotSwitchable) ↔
      g.can_switch = false) ∧
    (∀ allow, g.get_external_displays_require_dgpu env allow =
        Except.error GraphicsDeviceError.NotSwitchable ↔
      g.can_switch = false) := by
  have hsetp : ∀ b, ((g.set_power s env b).2.2 =
      Except.error GraphicsDeviceError.NotSwitchable ↔
    g.can_switch = false) := by
    intro b
    cases hsw : g.can_switch with
    | false =>
      simp [Graphics.set_power, Graphics.switchable_or_fail, hsw]
    | true =>
      have hne := set_power_no_ns g s env b hsw
      simp [hne]
  refine ⟨can_switch_iff g, ?_, hsetp, ?_, ?_, ?_, ?_⟩
  · intro v
    cases hsw : g.can_switch with
    | false =>
      simp [Graphics.set_vendor, Graphics.switchable_or_fail, hsw]
    | true =>
      have hne := set_vendor_no_ns g env v hsw
      simp [hne]
  · cases hm : env.modulesResult with
    | error e =>
      simp [Graphics.auto_power, Graphics.get_vendor, hm]
    | ok ms =>
      simp only [Graphics.auto_power, Graphics.get_vendor, hm]
      rw [hsetp]
      simp
  · cases hsw : g.can_switch with
    | false =>
      simp [Graphics.get_power, Graphics.switchable_or_fail, hsw]
    | true =>
      simp [Graphics.get_power, Graphics.switchable_or_fail, hsw]
  · cases hsw : g.can_switch with
    | false =>
      simp [Graphics.get_default_graphics, Graphics.switchable_or_fail, hsw]
    | true =>
      cases hp : env.productRead with
      | error why =>
        simp [Graphics.get_default_graphics, Graphics.switchable_or_fail,
          hsw, hp]
      | ok p =>
        cases hrt : g.gpu_supports_runtimepm env with
        | none =>
          simp [Graphics.get_default_graphics, Graphics.switchable_or_fail,
            hsw, hp, hrt]
        | some rt =>
          cases hv : env.vendorRead with
          | error why =>
            simp [Graphics.get_default_graphics,
              Graphics.switchable_or_fail, hsw, hp, hrt, hv]
          | ok v =>
            simp [Graphics.get_default_graphics,
              Graphics.switchable_or_fail, hsw, hp, hrt, hv]
  · intro allow
    cases hsw : g.can_switch with
    | false =>
      simp [Graphics.get_external_displays_require_dgpu,
        Graphics.switchable_or_fail, hsw]
    | true =>
      cases hp : env.productRead with
      | error why =>
        simp [Graphics.get_external_displays_require_dgpu,
          Graphics.switchable_or_fail, hsw, hp]
      | ok p =>
        simp [Graphics.get_external_displays_require_dgpu,
          Graphics.switchable_or_fail, hsw, hp]

theorem set_vendor_trace_shape (g : Graphics) (env : Env) (v : String)
    (hs : g.can_switch = true) (hw : env.primeWrite = none)
    (ho : env.modprobeOpen = none) :
    ∃ t, (g.set_vendor env v).1 =
      [FsOp.primeWrite (primeModeFor v),
        FsOp.modprobeWrite (modprobeFor v)] ++ t := by
  simp only [Graphics.set_vendor, Graphics.switchable_or_fail, hs, if_true,
    hw, ho]
  repeat' split
  all_goals exact ⟨_, rfl⟩

/-- C4: under the switchability gate, with the PRIME write and the modprobe
open succeeding, set_vendor("hybrid") writes exactly the nine characters
on-demand plus a newline to the PRIME file and then the hybrid modprobe
template verbatim; set_vendor("nvidia") writes exactly on plus newline and
the nvidia template; any other vendor string writes exactly off plus
newline, compute selecting the compute template and every other
non-hybrid, non-nvidia, non-compute string the integrated template. -/
theorem claim4_set_vendor_writes (g : Graphics) (env : Env)
    (hs : g.can_switch = true) (hw : env.primeWrite = none)
    (ho : env.modprobeOpen = none) :
    ((g.set_vendor env ("hybrid")).1.take 2 =
      [FsOp.primeWrite ("on-demand\n"),
        FsOp.modprobeWrite MODPROBE_HYBRID]) ∧
    ((g.set_vendor env ("nvidia")).1.take 2 =
      [FsOp.primeWrite ("on\n"), FsOp.modprobeWrite MODPROBE_NVIDIA]) ∧
    (∀ v, v ≠ ("hybrid") → v ≠ ("nvidia") →
      (g.set_vendor env v).1.take 2 =
        [FsOp.primeWrite ("off\n"),
          FsOp.modprobeWrite
            (if v = ("compute") then MODPROBE_COMPUTE
            else MODPROBE_INTEGRATED)]) := by
  refine ⟨?_, ?_, ?_⟩
  · obtain ⟨t, ht⟩ := set_vendor_trace_shape g env ("hybrid") hs hw ho
    rw [ht]; rfl
  · obtain ⟨t, ht⟩ := set_vendor_trace_shape g env ("nvidia") hs hw ho
    rw [ht]; rfl
  · intro v hv1 hv2
    obtain ⟨t, ht⟩ := set_vendor_trace_shape g env v hs hw ho
    rw [ht, show ([FsOp.primeWrite (primeModeFor v),
      FsOp.modprobeWrite (modprobeFor v)] ++ t).take 2 =
      [FsOp.primeWrite (primeModeFor v),
        FsOp.modprobeWrite (modprobeFor v)] from rfl]
    have h1 : (v == "hybrid") = false := beq_eq_false_iff_ne.mpr hv1
    have h2 : (v == "nvidia") = false := beq_eq_false_iff_ne.mpr hv2
    by_cases hc : v = ("compute")
    · simp [primeModeFor, modprobeFor, h1, h2, hc]
    · have h3 : (v == "compute") = false := beq_eq_false_iff_ne.mpr hc
      simp [primeModeFor, modprobeFor, h1, h2, h3, hc]

/-- Witness for C4 on the switchable fixture with an all-success
environment. -/
theorem claim4_set_vendor_writes_witness :
    ((g0.set_vendor env0 ("hybrid")).1.take 2 =
      [FsOp.primeWrite ("on-demand\n"),
        FsOp.modprobeWrite MODPROBE_HYBRID]) ∧
    ((g0.set_vendor env0 ("nvidia")).1.take 2 =
      [FsOp.primeWrite ("on\n"), FsOp.modprobeWrite MODPROBE_NVIDIA]) ∧
    (∀ v, v ≠ ("hybrid") → v ≠ ("nvidia") →
      (g0.set_vendor env0 v).1.take 2 =
        [FsOp.primeWrite ("off\n"),
          FsOp.modprobeWrite
            (if v = ("compute") then MODPROBE_COMPUTE
            else MODPROBE_INTEGRATED)]) :=
  claim4_set_vendor_writes g0 env0 (by decide) rfl rfl

theorem modules_any_iff (ms : List String) :
    (ms.any fun m => m == "nouveau" || m == "nvidia") = true ↔
      ("nouveau") ∈ ms ∨ ("nvidia") ∈ ms := by
  simp only [List.any_eq_true, Bool.or_eq_true, beq_iff_eq]
  constructor
  · rintro ⟨x, hx, rfl | rfl⟩
    · exact Or.inl hx
    · exact Or.inr hx
  · rintro (h | h)
    · exact ⟨_, h, Or.inl rfl⟩
    · exact ⟨_, h, Or.inr rfl⟩

/-- C5: with the loaded-module fetch succeeding, get_vendor reports
integrated whenever neither nouveau nor nvidia is among the loaded modules,
whatever the PRIME file holds; otherwise it does not fail on an unreadable
PRIME file but substitutes nvidia, and maps the trimmed PRIME content
on-demand to hybrid, off to compute, and anything else to nvidia. -/
theorem claim5_get_vendor (g : Graphics) (env : Env) (ms : List String)
    (hm : env.modulesResult = Except.ok ms) :
    (("nouveau") ∉ ms → ("nvidia") ∉ ms →
      g.get_vendor env = Except.ok ("integrated")) ∧
    ((("nouveau") ∈ ms ∨ ("nvidia") ∈ ms) →
      (∀ e, env.primeRead = Except.error e →
        g.get_vendor env = Except.ok ("nvidia")) ∧
      (∀ c, env.primeRead = Except.ok c →
        g.get_vendor env =
          Except.ok
            (if c.trim = ("on-demand") then ("hybrid")
            else if c.trim = ("off") then ("compute")
            else ("nvidia")))) := by
  constructor
  · intro h1 h2
    have hany : (ms.any fun m => m == "nouveau" || m == "nvidia") = false := by
      rw [Bool.eq_false_iff]
      intro hx
      rcases (modules_any_iff ms).mp hx with h | h
      · exact h1 h
      · exact h2 h
    simp [Graphics.get_vendor, hm, hany]
  · intro hmem
    have hany : (ms.any fun m => m == "nouveau" || m == "nvidia") = true :=
      (modules_any_iff ms).mpr hmem
    constructor
    · intro e he
      simp [Graphics.get_vendor, hm, hany, he]
    · intro c hc
      simp only [Graphics.get_vendor, hm, hany, if_true, hc]
      by_cases hd : c.trim = ("on-demand")
      · simp [hd]
      · have hd2 : (c.trim == "on-demand") = false :=
          beq_eq_false_iff_ne.mpr hd
        by_cases hoff : c.trim = ("off")
        · simp [hd, hd2, hoff]
        · have ho2 : (c.trim == "off") = false :=
            beq_eq_false_iff_ne.mpr hoff
          simp [hd, hd2, hoff, ho2]

/-- Environment fixture for C5: nvidia loaded, PRIME file readable. -/
def env5 : Env :=
  { env0 with
    modulesResult := Except.ok [("nvidia")]
    primeRead := Except.ok ("on-demand\n") }

/-- Witness for C5 with the nvidia module loaded. -/
theorem claim5_get_vendor_witness :
    (("nouveau") ∉ [("nvidia")] → ("nvidia") ∉ [("nvidia")] →
      g0.get_vendor env5 = Except.ok ("integrated")) ∧
    ((("nouveau") ∈ [("nvidia")] ∨ ("nvidia") ∈ [("nvidia")]) →
      (∀ e, env5.primeRead = Except.error e →
        g0.get_vendor env5 = Except.ok ("nvidia")) ∧
      (∀ c, env5.primeRead = Except.ok c →
        g0.get_vendor env5 =
          Except.ok
            (if c.trim = ("on-demand") then ("hybrid")
            else if c.trim = ("off") then ("compute")
            else ("nvidia")))) :=
  claim5_get_vendor g0 env5 [("nvidia")] rfl

/-- C6: once set_vendor reaches the initramfs step (gate passed, PRIME and
modprobe writes succeeded, systemctl spawned), a presence check exiting 0
routes to dracut and never to update-initramfs, a non-zero presence check
routes to update-initramfs and never to dracut; a non-zero exit of the tool
that ran is fatal as UpdateInitramfs carrying that exit status, a zero exit
completes the call; failing to spawn the traditional tool at all (the tool
is missing) produces a Command error naming it, an error distinct from
every UpdateInitramfs error. -/
theorem claim6_initramfs_rebuild (g : Graphics) (env : Env) (v : String)
    (hs : g.can_switch = true) (hw : env.primeWrite = none)
    (ho : env.modprobeOpen = none) (hmw : env.modprobeWrite = none)
    (st0 : ExitStatus) (hsc : env.systemctl = Except.ok st0) :
    (env.dracutCheck = Except.ok 0 →
      (∀ why, env.dracutRun = Except.error why →
        (g.set_vendor env v).2 =
          Except.error (GraphicsDeviceError.Command ("dracut") why)) ∧
      (∀ st, env.dracutRun = Except.ok st →
        (FsOp.dracutRun ∈ (g.set_vendor env v).1 ∧
          FsOp.updateInitramfsRun ∉ (g.set_vendor env v).1) ∧
        (st ≠ 0 →
          (g.set_vendor env v).2 =
            Except.error (GraphicsDeviceError.UpdateInitramfs st)) ∧
        (st = 0 → (g.set_vendor env v).2 = Except.ok ()))) ∧
    (∀ stc, env.dracutCheck = Except.ok stc → stc ≠ 0 →
      (∀ st, env.updateInitramfs = Except.ok st →
        (FsOp.updateInitramfsRun ∈ (g.set_vendor env v).1 ∧
          FsOp.dracutRun ∉ (g.set_vendor env v).1) ∧
        (st ≠ 0 →
          (g.set_vendor env v).2 =
            Except.error (GraphicsDeviceError.UpdateInitramfs st)) ∧
        (st = 0 → (g.set_vendor env v).2 = Except.ok ())) ∧
      (∀ why, env.updateInitramfs = Except.error why →
        (g.set_vendor env v).2 =
          Except.error
            (GraphicsDeviceError.Command ("update-initramfs") why))) ∧
    (∀ why st, GraphicsDeviceError.Command ("update-initramfs") why ≠
      GraphicsDeviceError.UpdateInitramfs st) := by
  refine ⟨?_, ?_, ?_⟩
  · intro hdc
    constructor
    · intro why hdr
      simp [Graphics.set_vendor, Graphics.switchable_or_fail, hs, hw, ho,
        hmw, hsc, hdc, hdr]
    · intro st hdr
      refine ⟨?_, ?_, ?_⟩
      · by_cases hz : st = 0 <;>
          simp [Graphics.set_vendor, Graphics.switchable_or_fail, hs, hw,
            ho, hmw, hsc, hdc, hdr, hz]
      · intro hz
        have hz2 : (st == 0) = false := beq_eq_false_iff_ne.mpr hz
        simp [Graphics.set_vendor, Graphics.switchable_or_fail, hs, hw, ho,
          hmw, hsc, hdc, hdr, hz2]
      · intro hz
        simp [Graphics.set_vendor, Graphics.switchable_or_fail, hs, hw, ho,
          hmw, hsc, hdc, hdr, hz]
  · intro stc hdc hstc
    have hstc2 : (stc == 0) = false := beq_eq_false_iff_ne.mpr hstc
    refine ⟨?_, ?_⟩
    · intro st hui
      refine ⟨?_, ?_, ?_⟩
      · by_cases hz : st = 0 <;>
          simp [Graphics.set_vendor, Graphics.switchable_or_fail, hs, hw,
            ho, hmw, hsc, hdc, hstc2, hui, hz]
      · intro hz
        have hz2 : (st == 0) = false := beq_eq_false_iff_ne.mpr hz
        simp [Graphics.set_vendor, Graphics.switchable_or_fail, hs, hw, ho,
          hmw, hsc, hdc, hstc2, hui, hz2]
      · intro hz
        simp [Graphics.set_vendor, Graphics.switchable_or_fail, hs, hw, ho,
          hmw, hsc, hdc, hstc2, hui, hz]
    · intro why hui
      simp [Graphics.set_vendor, Graphics.switchable_or_fail, hs, hw, ho,
        hmw, hsc, hdc, hstc2, hui]
  · intro why st h
    simp at h

/-- Witness for C6 on the switchable fixture with an all-success
environment. -/
theorem claim6_initramfs_rebuild_witness :
    (env0.dracutCheck = Except.ok 0 →
      (∀ why, env0.dracutRun = Except.error why →
        (g0.set_vendor env0 ("hybrid")).2 =
          Except.error (GraphicsDeviceError.Command ("dracut") why)) ∧
      (∀ st, env0.dracutRun = Except.ok st →
        (FsOp.dracutRun ∈ (g0.set_vendor env0 ("hybrid")).1 ∧
          FsOp.updateInitramfsRun ∉ (g0.set_vendor env0 ("hybrid")).1) ∧
        (st ≠ 0 →
          (g0.set_vendor env0 ("hybrid")).2 =
            Except.error (GraphicsDeviceError.UpdateInitramfs st)) ∧
        (st = 0 → (g0.set_vendor env0 ("hybrid")).2 = Except.ok ()))) ∧
    (∀ stc, env0.dracutCheck = Except.ok stc → stc ≠ 0 →
      (∀ st, env0.updateInitramfs = Except.ok st →
        (FsOp.updateInitramfsRun ∈ (g0.set_vendor env0 ("hybrid")).1 ∧
          FsOp.dracutRun ∉ (g0.set_vendor env0 ("hybrid")).1) ∧
        (st ≠ 0 →
          (g0.set_vendor env0 ("hybrid")).2 =
            Except.error (GraphicsDeviceError.UpdateInitramfs st)) ∧
        (st = 0 → (g0.set_vendor env0 ("hybrid")).2 = Except.ok ())) ∧
      (∀ why, env0.updateInitramfs = Except.error why →
        (g0.set_vendor env0 ("hybrid")).2 =
          Except.error
            (GraphicsDeviceError.Command ("update-initramfs") why))) ∧
    (∀ why st, GraphicsDeviceError.Command ("update-initramfs") why ≠
      GraphicsDeviceError.UpdateInitramfs st) :=
  claim6_initramfs_rebuild g0 env0 ("hybrid") (by decide) rfl rfl rfl 0 rfl

theorem gpu_supports_isSome (g : Graphics) (env : Env)
    (h : g.nvidia ≠ []) :
    (g.gpu_supports_runtimepm env).isSome = true := by
  cases hnv : g.nvidia with
  | nil => exact absurd hnv h
  | cons d rest =>
    cases hid : env.deviceIdRead with
    | error why =>
      simp [Graphics.gpu_supports_runtimepm, Graphics.get_nvidia_device_id,
        hnv, hid]
    | ok content =>
      cases hpx : parseHexU32 ((strip0x content).trim) with
      | none =>
        simp [Graphics.gpu_supports_runtimepm,
          Graphics.get_nvidia_device_id, hnv, hid, hpx]
      | some n =>
        simp [Graphics.gpu_supports_runtimepm,
          Graphics.get_nvidia_device_id, hnv, hid, hpx]

/-- C7: with the snapshot switchable and the product and vendor reads
succeeding, get_default_graphics answers nvidia whenever the trimmed
machine vendor differs from the System76 brand; else hybrid when the
runtime power management lookup succeeds with true (the exclusion list
being empty); else integrated, including whenever the lookup fails — the
call itself still succeeds.  The lookup does fail on an unreadable device
id file, an unreadable driver version, an unreadable database, and a
database with no matching device id. -/
theorem claim7_default_graphics (g : Graphics) (env : Env)
    (hs : g.can_switch = true) (p v : String)
    (hp : env.productRead = Except.ok p)
    (hv : env.vendorRead = Except.ok v) :
    (v.trim ≠ ("System76") →
      g.get_default_graphics env = some (Except.ok ("nvidia"))) ∧
    (v.trim = ("System76") →
      g.gpu_supports_runtimepm env = some (Except.ok true) →
      g.get_default_graphics env = some (Except.ok ("hybrid"))) ∧
    (v.trim = ("System76") →
      g.gpu_supports_runtimepm env = some (Except.ok false) →
      g.get_default_graphics env = some (Except.ok ("integrated"))) ∧
    (v.trim = ("System76") →
      ∀ e, g.gpu_supports_runtimepm env = some (Except.error e) →
      g.get_default_graphics env = some (Except.ok ("integrated"))) ∧
    (∀ io, env.deviceIdRead = Except.error io →
      g.gpu_supports_runtimepm env =
        some (Except.error (GraphicsDeviceError.SysFs io))) ∧
    (∀ io n, env.versionRead = Except.error io →
      g.get_nvidia_device_id env = some (Except.ok n) →
      g.gpu_supports_runtimepm env =
        some (Except.error (GraphicsDeviceError.SysFs io))) ∧
    (∀ io n vs, env.gpusDb = Except.error io →
      g.get_nvidia_device_id env = some (Except.ok n) →
      env.versionRead = Except.ok vs →
      g.gpu_supports_runtimepm env =
        some (Except.error (GraphicsDeviceError.Json io))) ∧
    (∀ n vs chips, g.get_nvidia_device_id env = some (Except.ok n) →
      env.versionRead = Except.ok vs →
      env.gpusDb = Except.ok chips →
      (∀ c ∈ chips, ((parseHexU32 ((strip0x c.devid).trim)).getD 0) ≠ n) →
      g.gpu_supports_runtimepm env =
        some (Except.error (GraphicsDeviceError.Json
          { kind := IoKind.notFound, msg := "GPU device not found" }))) := by
  have hnv : g.nvidia ≠ [] := ((can_switch_iff g).mp hs).1
  obtain ⟨rt, hrt⟩ :=
    Option.isSome_iff_exists.mp (gpu_supports_isSome g env hnv)
  refine ⟨?_, ?_, ?_, ?_, ?_, ?_, ?_, ?_⟩
  · intro hne
    simp [Graphics.get_default_graphics, Graphics.switchable_or_fail, hs,
      hp, hrt, hv, hne]
  · intro hS hrt2
    simp [Graphics.get_default_graphics, Graphics.switchable_or_fail, hs,
      hp, hrt2, hv, hS, DEFAULT_INTEGRATED]
  · intro hS hrt2
    simp [Graphics.get_default_graphics, Graphics.switchable_or_fail, hs,
      hp, hrt2, hv, hS, DEFAULT_INTEGRATED]
  · intro hS e hrt2
    simp [Graphics.get_default_graphics, Graphics.switchable_or_fail, hs,
      hp, hrt2, hv, hS, DEFAULT_INTEGRATED]
  · intro io hio
    cases hnv2 : g.nvidia with
    | nil => exact absurd hnv2 hnv
    | cons d rest =>
      simp [Graphics.gpu_supports_runtimepm,
        Graphics.get_nvidia_device_id, hnv2, hio]
  · intro io n hio hdev
    simp [Graphics.gpu_supports_runtimepm, hdev,
      Graphics.get_nvidia_device, Graphics.nvidia_version, hio]
  · intro io n vs hdb hdev hvs
    simp [Graphics.gpu_supports_runtimepm, hdev,
      Graphics.get_nvidia_device, Graphics.nvidia_version, hvs, hdb]
  · intro n vs chips hdev hvs hdb hnone
    have hfind : chips.find?
        (fun dev =>
          ((parseHexU32 ((strip0x dev.devid).trim)).getD 0) == n) = none := by
      rw [List.find?_eq_none]
      intro c hc
      simp [hnone c hc]
    simp [Graphics.gpu_supports_runtimepm, hdev,
      Graphics.get_nvidia_device, Graphics.nvidia_version, hvs, hdb, hfind]

/-- Witness for C7 on the switchable fixture with an all-success
environment. -/
theorem claim7_default_graphics_witness :
    (String.trim ("") ≠ ("System76") →
      g0.get_default_graphics env0 = some (Except.ok ("nvidia"))) ∧
    (String.trim ("") = ("System76") →
      g0.gpu_supports_runtimepm env0 = some (Except.ok true) →
      g0.get_default_graphics env0 = some (Except.ok ("hybrid"))) ∧
    (String.trim ("") = ("System76") →
      g0.gpu_supports_runtimepm env0 = some (Except.ok false) →
      g0.get_default_graphics env0 = some (Except.ok ("integrated"))) ∧
    (String.trim ("") = ("System76") →
      ∀ e, g0.gpu_supports_runtimepm env0 = some (Except.error e) →
      g0.get_default_graphics env0 = some (Except.ok ("integrated"))) ∧
    (∀ io, env0.deviceIdRead = Except.error io →
      g0.gpu_supports_runtimepm env0 =
        some (Except.error (GraphicsDeviceError.SysFs io))) ∧
    (∀ io n, env0.versionRead = Except.error io →
      g0.get_nvidia_device_id env0 = some (Except.ok n) →
      g0.gpu_supports_runtimepm env0 =
        some (Except.error (GraphicsDeviceError.SysFs io))) ∧
    (∀ io n vs, env0.gpusDb = Except.error io →
      g0.get_nvidia_device_id env0 = some (Except.ok n) →
      env0.versionRead = Except.ok vs →
      g0.gpu_supports_runtimepm env0 =
        some (Except.error (GraphicsDeviceError.Json io))) ∧
    (∀ n vs chips, g0.get_nvidia_device_id env0 = some (Except.ok n) →
      env0.versionRead = Except.ok vs →
      env0.gpusDb = Except.ok chips →
      (∀ c ∈ chips, ((parseHexU32 ((strip0x c.devid).trim)).getD 0) ≠ n) →
      g0.gpu_supports_runtimepm env0 =
        some (Except.error (GraphicsDeviceError.Json
          { kind := IoKind.notFound, msg := "GPU device not found" }))) :=
  claim7_default_graphics g0 env0 (by decide) ("") ("") rfl rfl

/-- C9: under the switchability gate the NVIDIA bucket is non-empty, so the
indexing of its first element inside get_nvidia_device_id is in bounds (the
none that models the panic never arises) all the way up through
gpu_supports_runtimepm and get_default_graphics. -/
theorem claim9_no_index_panic (g : Graphics) (env : Env)
    (hs : g.can_switch = true) :
    (g.get_nvidia_device_id env).isSome = true ∧
    (g.gpu_supports_runtimepm env).isSome = true ∧
    (g.get_default_graphics env).isSome = true := by
  have hnv : g.nvidia ≠ [] := ((can_switch_iff g).mp hs).1
  have h2 := gpu_supports_isSome g env hnv
  have h1 : (g.get_nvidia_device_id env).isSome = true := by
    cases hnv2 : g.nvidia with
    | nil => exact absurd hnv2 hnv
    | cons d rest => simp [Graphics.get_nvidia_device_id, hnv2]
  refine ⟨h1, h2, ?_⟩
  obtain ⟨rt, hrt⟩ := Option.isSome_iff_exists.mp h2
  cases hp : env.productRead with
  | error why =>
    simp [Graphics.get_default_graphics, Graphics.switchable_or_fail, hs,
      hp]
  | ok p =>
    cases hv : env.vendorRead with
    | error why =>
      simp [Graphics.get_default_graphics, Graphics.switchable_or_fail,
        hs, hp, hrt, hv]
    | ok v =>
      simp [Graphics.get_default_graphics, Graphics.switchable_or_fail,
        hs, hp, hrt, hv]

/-- Witness for C9 on the switchable fixture. -/
theorem claim9_no_index_panic_witness :
    (g0.get_nvidia_device_id env0).isSome = true ∧
    (g0.gpu_supports_runtimepm env0).isSome = true ∧
    (g0.get_default_graphics env0).isSome = true :=
  claim9_no_index_panic g0 env0 (by decide)

/-- C10: every public operation leaves the in-memory topology snapshot
unchanged — the amd, intel, nvidia and other buckets with every device's id
and function sequence are returned exactly as given, every method taking
the Graphics value by shared reference with no interior mutability; only
the kernel-side state and the external files, services and processes are
affected. -/
theorem claim10_snapshot_preserved (g : Graphics) (s : OsState) (env : Env)
    (op : GfxOp) : (runGfxOp g s env op).1 = g := by
  cases op <;> rfl

end Sys76
